import Mathlib

/-!
Shallow embedding of `src/mt5_bridge_server.py` (Wing Zero MT5 bridge).

The `MetaTrader5` driver is modelled as a record of pure query functions
(`MT5Driver`); each bridge method is a Lean function taking the driver and
the current `BridgeState` and returning its result, the updated state, and
the trace of driver calls it made.  Python `None`-or-falsy results become
`Option`/empty-list values, matching the truthiness tests in the source
(`if account_info:`, `if positions:`, `if tick:` ...).  Prices are modelled
as integers: every claim is about which quote field is selected, never
about float arithmetic.
-/

namespace MT5Bridge

/-- MT5 constant `mt5.ORDER_TYPE_BUY`. -/
def ORDER_TYPE_BUY : Nat := 0

/-- MT5 constant `mt5.ORDER_TYPE_SELL`. -/
def ORDER_TYPE_SELL : Nat := 1

/-- MT5 constant `mt5.POSITION_TYPE_BUY`. -/
def POSITION_TYPE_BUY : Nat := 0

/-- MT5 constant `mt5.POSITION_TYPE_SELL`. -/
def POSITION_TYPE_SELL : Nat := 1

/-- MT5 constant `mt5.TRADE_ACTION_DEAL`. -/
def TRADE_ACTION_DEAL : Nat := 1

/-- MT5 constant `mt5.ORDER_TIME_GTC`. -/
def ORDER_TIME_GTC : Nat := 0

/-- MT5 constant `mt5.ORDER_FILLING_IOC`. -/
def ORDER_FILLING_IOC : Nat := 1

/-- MT5 constant `mt5.TRADE_RETCODE_DONE`. -/
def TRADE_RETCODE_DONE : Int := 10009

/-- A market tick as returned by `mt5.symbol_info_tick`. -/
structure Tick where
  bid : Int
  ask : Int
  time : Int
  volume_real : Int
  deriving Repr, DecidableEq

/-- The fields of `mt5.account_info()._asdict()` the bridge uses. -/
structure AccountInfo where
  login : Nat
  balance : Int
  equity : Int
  deriving Repr, DecidableEq

/-- A position record as returned by `mt5.positions_get`; `typ` is the
Python field `type` (`POSITION_TYPE_BUY`/`POSITION_TYPE_SELL`). -/
structure Position where
  ticket : Nat
  symbol : String
  volume : Int
  typ : Nat
  deriving Repr, DecidableEq

/-- A pending-order record as returned by `mt5.orders_get`. -/
structure Order where
  ticket : Nat
  symbol : String
  deriving Repr, DecidableEq

/-- The trade-request dict built by `place_order`/`close_position` and sent
to `mt5.order_send`; `position` is `some t` exactly when the dict carries a
`"position": ticket` entry (only `close_position` adds it). -/
structure TradeRequest where
  action : Nat
  symbol : String
  volume : Int
  typ : Nat
  price : Int
  sl : Option Int
  tp : Option Int
  comment : String
  type_time : Nat
  type_filling : Nat
  position : Option Nat
  deriving Repr, DecidableEq

/-- The result object of `mt5.order_send`. -/
structure OrderResult where
  retcode : Int
  order : Int
  comment : String
  deriving Repr, DecidableEq

/-- The opaque `MetaTrader5` terminal-session driver, as a record of pure
functions: `mt5_init_ok` models the return of `mt5.initialize()`,
`login_ok` that of `mt5.login`, and `symbols_get = none` models
`mt5.symbols_get()` returning `None` (an empty list models the empty
tuple, also falsy in Python). -/
structure MT5Driver where
  mt5_init_ok : Bool
  login_ok : Nat → String → String → Bool
  account_info : Option AccountInfo
  symbols_get : Option (List String)
  positions_get : List Position
  orders_get : List Order
  positions_get_ticket : Nat → Option Position
  symbol_info : String → Option Unit
  symbol_info_tick : String → Option Tick
  order_send : TradeRequest → OrderResult

/-- One call into the `MetaTrader5` driver, recorded in execution traces;
`mt5Init` is the call `mt5.initialize()`, `threadJoin` the
`data_thread.join()` in `disconnect`. -/
inductive DriverCall where
  | mt5Init
  | login (l : Nat) (p sv : String)
  | accountInfo
  | symbolsGet
  | positionsGet
  | positionsGetTicket (t : Nat)
  | ordersGet
  | symbolInfo (s : String)
  | symbolInfoTick (s : String)
  | orderSend (r : TradeRequest)
  | shutdown
  | threadJoin
  deriving Repr, DecidableEq

/-- The market-data dict built by `get_market_data`. -/
structure MarketData where
  symbol : String
  bid : Int
  ask : Int
  spread : Int
  timestamp : Int
  volume : Int
  deriving Repr, DecidableEq

/-- The mutable fields of the `MT5Bridge` instance (`__init__`). -/
structure BridgeState where
  connected : Bool
  account_info : Option AccountInfo
  symbols : List String
  market_data : List (String × MarketData)
  positions : List Position
  orders : List Order
  data_thread : Bool
  running : Bool
  deriving Repr, DecidableEq

/-- The state set up by `MT5Bridge.__init__`. -/
def initState : BridgeState :=
  { connected := false, account_info := none, symbols := [], market_data := [],
    positions := [], orders := [], data_thread := false, running := false }

/-- A Python scalar value appearing in a result dict. -/
inductive PyVal where
  | pyBool (b : Bool)
  | pyInt (n : Int)
  | pyStr (s : String)
  deriving Repr, DecidableEq

/-- A Python dict returned by a bridge method, as an ordered key/value list. -/
abbrev PyDict := List (String × PyVal)

/-- Keys of a result dict, in construction order. -/
def dictKeys (r : PyDict) : List String := r.map Prod.fst

/-- Python `"error" in result`-style membership test. -/
def hasKey (r : PyDict) (k : String) : Bool := r.any (fun p => p.fst == k)

/-- Steps shared by `connect` after a successful `mt5.initialize` (and
optional login): fetch the account snapshot, set `connected`, fetch and
truncate the symbol list (`symbols[:50]`, skipped when falsy). -/
def connectAfterLogin (d : MT5Driver) (s : BridgeState) (tr : List DriverCall) :
    Bool × BridgeState × List DriverCall :=
  match d.account_info with
  | none => (false, s, tr ++ [DriverCall.accountInfo])
  | some a =>
    let s1 : BridgeState := { s with account_info := some a, connected := true }
    let tr1 := tr ++ [DriverCall.accountInfo, DriverCall.symbolsGet]
    match d.symbols_get with
    | none => (true, s1, tr1)
    | some syms =>
      if syms.isEmpty then (true, s1, tr1)
      else (true, { s1 with symbols := syms.take 50 }, tr1)

/-- `MT5Bridge.connect`: initialize the terminal, optionally log in, then
fetch account info and symbols.  Returns the Python boolean result, the
new state, and the trace of driver calls. -/
def connect (d : MT5Driver) (s : BridgeState) (creds : Option (Nat × String × String)) :
    Bool × BridgeState × List DriverCall :=
  if !d.mt5_init_ok then (false, s, [DriverCall.mt5Init])
  else
    match creds with
    | none => connectAfterLogin d s [DriverCall.mt5Init]
    | some (l, p, sv) =>
      if !d.login_ok l p sv then
        (false, s, [DriverCall.mt5Init, DriverCall.login l p sv])
      else connectAfterLogin d s [DriverCall.mt5Init, DriverCall.login l p sv]

/-- `MT5Bridge.disconnect`: clear `running`, join the data thread if one
exists, `mt5.shutdown()`, clear `connected`.  Total: it returns a state in
every case (the source has no failure path here). -/
def disconnect (s : BridgeState) : BridgeState × List DriverCall :=
  ({ s with running := false, connected := false },
   (if s.data_thread then [DriverCall.threadJoin] else []) ++ [DriverCall.shutdown])

/-- `MT5Bridge.get_account_info`: re-query the venue and replace the cached
snapshot when the query returns a value; keep the cache and return `None`
otherwise. -/
def get_account_info (d : MT5Driver) (s : BridgeState) :
    Option AccountInfo × BridgeState × List DriverCall :=
  if !s.connected then (none, s, [])
  else
    match d.account_info with
    | some a => (some a, { s with account_info := some a }, [DriverCall.accountInfo])
    | none => (none, s, [DriverCall.accountInfo])

/-- `MT5Bridge.get_positions`: `if positions:` means the cache is replaced
only when the venue result is non-empty (Python truthiness of the tuple);
on `None`/empty the method returns `[]` and keeps the old cache. -/
def get_positions (d : MT5Driver) (s : BridgeState) :
    List Position × BridgeState × List DriverCall :=
  if !s.connected then ([], s, [])
  else
    if d.positions_get.isEmpty then ([], s, [DriverCall.positionsGet])
    else (d.positions_get, { s with positions := d.positions_get }, [DriverCall.positionsGet])

/-- `MT5Bridge.get_orders`: same truthiness pattern as `get_positions`. -/
def get_orders (d : MT5Driver) (s : BridgeState) :
    List Order × BridgeState × List DriverCall :=
  if !s.connected then ([], s, [])
  else
    if d.orders_get.isEmpty then ([], s, [DriverCall.ordersGet])
    else (d.orders_get, { s with orders := d.orders_get }, [DriverCall.ordersGet])

/-- The market-data dict `get_market_data` builds from a tick
(`spread = ask - bid`, `timestamp = time * 1000`). -/
def mkMarketData (symbol : String) (t : Tick) : MarketData :=
  { symbol := symbol, bid := t.bid, ask := t.ask, spread := t.ask - t.bid,
    timestamp := t.time * 1000, volume := t.volume_real }

/-- `MT5Bridge.get_market_data`: fetch the current tick for a symbol;
`None` when not connected or when the tick fetch fails.  It never writes
`BridgeState`. -/
def get_market_data (d : MT5Driver) (s : BridgeState) (symbol : String) :
    Option MarketData × List DriverCall :=
  if !s.connected then (none, [])
  else
    match d.symbol_info_tick symbol with
    | some t => (some (mkMarketData symbol t), [DriverCall.symbolInfoTick symbol])
    | none => (none, [DriverCall.symbolInfoTick symbol])

/-- The request dict literal built in `place_order` (it never carries a
`"position"` entry). -/
def placeDealReq (symbol : String) (order_type : Nat) (volume : Int) (p : Int)
    (sl tp : Option Int) (comment : String) : TradeRequest :=
  { action := TRADE_ACTION_DEAL, symbol := symbol, volume := volume,
    typ := order_type, price := p, sl := sl, tp := tp, comment := comment,
    type_time := ORDER_TIME_GTC, type_filling := ORDER_FILLING_IOC,
    position := none }

/-- The price `place_order` uses: the explicit one when given, otherwise
the current tick's ask for `ORDER_TYPE_BUY` and bid for any other type;
`none` when the tick fetch fails. -/
def resolvedPrice (d : MT5Driver) (symbol : String) (order_type : Nat)
    (price : Option Int) : Option Int :=
  match price with
  | some p => some p
  | none =>
    (d.symbol_info_tick symbol).map (fun t => if order_type == ORDER_TYPE_BUY then t.ask else t.bid)

/-- `MT5Bridge.place_order`: resolve the symbol, resolve the price from the
current tick when none is given (`ask` for `ORDER_TYPE_BUY`, else `bid`),
build the deal request, send it, and map the retcode.  The trace does not
depend on the retcode branch: both return paths follow the same calls. -/
def place_order (d : MT5Driver) (s : BridgeState) (symbol : String) (order_type : Nat)
    (volume : Int) (price : Option Int) (sl tp : Option Int) (comment : String) :
    PyDict × List DriverCall :=
  if !s.connected then ([("error", PyVal.pyStr "Not connected to MT5")], [])
  else
    match d.symbol_info symbol with
    | none =>
      ([("error", PyVal.pyStr ("Symbol " ++ symbol ++ " not found"))],
       [DriverCall.symbolInfo symbol])
    | some _ =>
      let tickTrace : List DriverCall :=
        match price with
        | some _ => []
        | none => [DriverCall.symbolInfoTick symbol]
      match resolvedPrice d symbol order_type price with
      | none =>
        ([("error", PyVal.pyStr ("Failed to get price for " ++ symbol))],
         DriverCall.symbolInfo symbol :: tickTrace)
      | some p =>
        let req := placeDealReq symbol order_type volume p sl tp comment
        let res := d.order_send req
        ((if res.retcode != TRADE_RETCODE_DONE then
            [("error", PyVal.pyStr ("Order failed: " ++ res.comment))]
          else
            [("success", PyVal.pyBool true), ("order_id", PyVal.pyInt res.order),
             ("retcode", PyVal.pyInt res.retcode), ("comment", PyVal.pyStr res.comment)]),
         DriverCall.symbolInfo symbol :: tickTrace ++ [DriverCall.orderSend req])

/-- The closing-deal request dict literal built in `close_position`: it
carries the `"position": ticket` reference and no `sl`/`tp` entries. -/
def closeDealReq (pos : Position) (ticket : Nat) (close_type : Nat) (price : Int) :
    TradeRequest :=
  { action := TRADE_ACTION_DEAL, symbol := pos.symbol, volume := pos.volume,
    typ := close_type, price := price, sl := none, tp := none,
    comment := "WingZero Close", type_time := ORDER_TIME_GTC,
    type_filling := ORDER_FILLING_IOC, position := some ticket }

/-- `MT5Bridge.close_position`: look up the position by ticket, flip its
side (`SELL` closes a `POSITION_TYPE_BUY`, otherwise `BUY`), price it off
the current tick (`bid` for a sell deal, `ask` for a buy deal), and submit
a deal referencing the ticket.  The success dict has no `comment` key. -/
def close_position (d : MT5Driver) (s : BridgeState) (ticket : Nat) :
    PyDict × List DriverCall :=
  if !s.connected then ([("error", PyVal.pyStr "Not connected to MT5")], [])
  else
    match d.positions_get_ticket ticket with
    | none =>
      ([("error", PyVal.pyStr ("Position " ++ toString ticket ++ " not found"))],
       [DriverCall.positionsGetTicket ticket])
    | some pos =>
      let close_type := if pos.typ == POSITION_TYPE_BUY then ORDER_TYPE_SELL else ORDER_TYPE_BUY
      match d.symbol_info_tick pos.symbol with
      | none =>
        ([("error", PyVal.pyStr ("Failed to get price for " ++ pos.symbol))],
         [DriverCall.positionsGetTicket ticket, DriverCall.symbolInfoTick pos.symbol])
      | some t =>
        let price := if close_type == ORDER_TYPE_SELL then t.bid else t.ask
        let req := closeDealReq pos ticket close_type price
        let res := d.order_send req
        ((if res.retcode != TRADE_RETCODE_DONE then
            [("error", PyVal.pyStr ("Close failed: " ++ res.comment))]
          else
            [("success", PyVal.pyBool true), ("order_id", PyVal.pyInt res.order),
             ("retcode", PyVal.pyInt res.retcode)]),
         [DriverCall.positionsGetTicket ticket, DriverCall.symbolInfoTick pos.symbol,
          DriverCall.orderSend req])

/-- `MT5Bridge.start_data_stream`: start the worker thread unless already
running; the boolean reports whether a new stream/thread was started. -/
def start_data_stream (s : BridgeState) : BridgeState × Bool :=
  if s.running then (s, false)
  else ({ s with running := true, data_thread := true }, true)

/-- The deal requests submitted via `mt5.order_send` in a trace. -/
def submittedDeals : List DriverCall → List TradeRequest
  | [] => []
  | DriverCall.orderSend r :: rest => r :: submittedDeals rest
  | _ :: rest => submittedDeals rest

/-- Number of session-level connects (`mt5.initialize` calls) in a trace. -/
def sessionConnects : List DriverCall → Nat
  | [] => 0
  | DriverCall.mt5Init :: rest => sessionConnects rest + 1
  | _ :: rest => sessionConnects rest

/-- A Flask route response: `errResp m c` models `jsonify({"error": m}), c`;
the `ok…` constructors model `jsonify(value)` with its status code. -/
inductive Resp where
  | errResp (msg : String) (code : Nat)
  | okAccount (a : AccountInfo)
  | okPositions (ps : List Position)
  | okOrders (os : List Order)
  | okMarket (m : MarketData)
  | okDict (r : PyDict) (code : Nat)
  deriving Repr, DecidableEq

/-- Route `GET /api/v1/account`. -/
def account_route (d : MT5Driver) (s : BridgeState) :
    Resp × BridgeState × List DriverCall :=
  if !s.connected then (Resp.errResp "Not connected to MT5" 400, s, [])
  else
    let r := get_account_info d s
    match r.1 with
    | some a => (Resp.okAccount a, r.2.1, r.2.2)
    | none => (Resp.errResp "Failed to get account info" 500, r.2.1, r.2.2)

/-- Route `GET /api/v1/positions`. -/
def positions_route (d : MT5Driver) (s : BridgeState) :
    Resp × BridgeState × List DriverCall :=
  if !s.connected then (Resp.errResp "Not connected to MT5" 400, s, [])
  else
    let r := get_positions d s
    (Resp.okPositions r.1, r.2.1, r.2.2)

/-- Route `GET /api/v1/orders`. -/
def orders_route (d : MT5Driver) (s : BridgeState) :
    Resp × BridgeState × List DriverCall :=
  if !s.connected then (Resp.errResp "Not connected to MT5" 400, s, [])
  else
    let r := get_orders d s
    (Resp.okOrders r.1, r.2.1, r.2.2)

/-- Route `GET /api/v1/market/<symbol>`. -/
def market_route (d : MT5Driver) (s : BridgeState) (symbol : String) :
    Resp × BridgeState × List DriverCall :=
  if !s.connected then (Resp.errResp "Not connected to MT5" 400, s, [])
  else
    let r := get_market_data d s symbol
    match r.1 with
    | some m => (Resp.okMarket m, s, r.2)
    | none => (Resp.errResp ("Failed to get data for " ++ symbol) 404, s, r.2)

/-- Route `POST /api/v1/orders`: converts the textual side to an MT5 order
type (anything other than `"buy"` maps to `ORDER_TYPE_SELL`) and relays the
bridge result, 400 when it carries an `error` key. -/
def place_order_route (d : MT5Driver) (s : BridgeState) (symbol : String)
    (order_type : String) (volume : Int) (price sl tp : Option Int) (comment : String) :
    Resp × BridgeState × List DriverCall :=
  if !s.connected then (Resp.errResp "Not connected to MT5" 400, s, [])
  else
    let mt5_order_type := if order_type.toLower == "buy" then ORDER_TYPE_BUY else ORDER_TYPE_SELL
    let r := place_order d s symbol mt5_order_type volume price sl tp comment
    (Resp.okDict r.1 (if hasKey r.1 "error" then 400 else 200), s, r.2)

/-- Route `POST /api/v1/positions/<ticket>/close`. -/
def close_position_route (d : MT5Driver) (s : BridgeState) (ticket : Nat) :
    Resp × BridgeState × List DriverCall :=
  if !s.connected then (Resp.errResp "Not connected to MT5" 400, s, [])
  else
    let r := close_position d s ticket
    (Resp.okDict r.1 (if hasKey r.1 "error" then 400 else 200), s, r.2)

/-- Route `POST /api/v1/connect`: drives `connect`, then
`start_data_stream` on success.  The final component counts StreamScheduler
starts performed by this call (0 or 1). -/
def connect_route (d : MT5Driver) (s : BridgeState) (creds : Option (Nat × String × String)) :
    Resp × BridgeState × List DriverCall × Nat :=
  let r := connect d s creds
  if r.1 then
    let st := start_data_stream r.2.1
    (Resp.okDict [("success", PyVal.pyBool true), ("message", PyVal.pyStr "Connected to MT5")] 200,
     st.1, r.2.2, if st.2 then 1 else 0)
  else
    (Resp.errResp "Failed to connect to MT5" 500, r.2.1, r.2.2, 0)

/-- The fixed watch-list of `_data_stream_worker`. -/
def major_pairs : List String :=
  ["EURUSD", "GBPUSD", "USDJPY", "USDCHF", "AUDUSD", "USDCAD", "NZDUSD"]

/-- Look up a symbol in the `market_data` dict. -/
def mdLookup (m : List (String × MarketData)) (k : String) : Option MarketData :=
  match m with
  | [] => none
  | (k', v) :: rest => if k' == k then some v else mdLookup rest k

/-- Update a symbol's entry in the `market_data` dict (Python
`self.market_data[symbol] = data`). -/
def mdInsert (m : List (String × MarketData)) (k : String) (v : MarketData) :
    List (String × MarketData) :=
  match m with
  | [] => [(k, v)]
  | (k', v') :: rest => if k' == k then (k, v) :: rest else (k', v') :: mdInsert rest k v

/-- A `socketio.emit` event published during a streaming iteration. -/
inductive StreamEvent where
  | marketData (m : MarketData)
  | positionsUpdate (ps : List Position)
  | accountUpdate (a : Option AccountInfo)
  deriving Repr, DecidableEq

/-- The per-symbol pass of one `_data_stream_worker` iteration: for each
watched symbol, fetch market data; on success store it in `market_data`
and emit a `market_data` event, on failure skip to the next symbol. -/
def stream_tick_pass (d : MT5Driver) : BridgeState → List String →
    BridgeState × List StreamEvent
  | s, [] => (s, [])
  | s, sym :: rest =>
    match (get_market_data d s sym).1 with
    | some data =>
      let s1 : BridgeState := { s with market_data := mdInsert s.market_data sym data }
      let r := stream_tick_pass d s1 rest
      (r.1, StreamEvent.marketData data :: r.2)
    | none => stream_tick_pass d s rest

/-- One full body of the `while` loop in `_data_stream_worker`: the tick
pass over `major_pairs`, then — when the wall clock hits a multiple of five
seconds (`fifth`) — the positions/account refresh and their events. -/
def stream_iteration (d : MT5Driver) (s : BridgeState) (fifth : Bool) :
    BridgeState × List StreamEvent :=
  let r := stream_tick_pass d s major_pairs
  if fifth then
    let rp := get_positions d r.1
    let ra := get_account_info d rp.2.1
    (ra.2.1, r.2 ++ [StreamEvent.positionsUpdate rp.1, StreamEvent.accountUpdate ra.1])
  else r

/-- Whether a `place_order` call takes its success path: connected, symbol
resolved, price resolved, and the venue retcode is `TRADE_RETCODE_DONE`
for the submitted request. -/
def placeOrderSucceeds (d : MT5Driver) (s : BridgeState) (symbol : String)
    (order_type : Nat) (volume : Int) (price : Option Int) (sl tp : Option Int)
    (comment : String) : Bool :=
  s.connected && (d.symbol_info symbol).isSome &&
    match resolvedPrice d symbol order_type price with
    | none => false
    | some p =>
      (d.order_send (placeDealReq symbol order_type volume p sl tp comment)).retcode ==
        TRADE_RETCODE_DONE

/-- Whether a `close_position` call takes its success path: connected,
ticket found, tick fetched, and the venue retcode is `TRADE_RETCODE_DONE`
for the submitted closing deal. -/
def closePositionSucceeds (d : MT5Driver) (s : BridgeState) (ticket : Nat) : Bool :=
  s.connected &&
    match d.positions_get_ticket ticket with
    | none => false
    | some pos =>
      match d.symbol_info_tick pos.symbol with
      | none => false
      | some t =>
        let close_type := if pos.typ == POSITION_TYPE_BUY then ORDER_TYPE_SELL else ORDER_TYPE_BUY
        let price := if close_type == ORDER_TYPE_SELL then t.bid else t.ask
        (d.order_send (closeDealReq pos ticket close_type price)).retcode == TRADE_RETCODE_DONE

/-! Concrete fixtures used by counterexamples and witnesses. -/

/-- A fixed EURUSD tick: bid 1.1000 and ask 1.1002 scaled to integers. -/
def tick1 : Tick := { bid := 11000, ask := 11002, time := 1700000000, volume_real := 5 }

/-- A fixed account snapshot. -/
def acct1 : AccountInfo := { login := 12345, balance := 10000, equity := 10000 }

/-- A long (buy-side) EURUSD position, ticket 101. -/
def p1 : Position := { ticket := 101, symbol := "EURUSD", volume := 1, typ := 0 }

/-- A short (sell-side) GBPUSD position, ticket 202; its tick is
unavailable in `okDriver`. -/
def p2 : Position := { ticket := 202, symbol := "EURUSD", volume := 2, typ := 1 }

/-- A pending order fixture. -/
def ord1 : Order := { ticket := 301, symbol := "EURUSD" }

/-- A healthy venue driver: everything succeeds, EURUSD is the only symbol
with a live tick, and every submitted deal is accepted. -/
def okDriver : MT5Driver :=
  { mt5_init_ok := true
    login_ok := fun _ _ _ => true
    account_info := some acct1
    symbols_get := some ["EURUSD", "GBPUSD"]
    positions_get := [p1]
    orders_get := [ord1]
    positions_get_ticket := fun t => if t == 101 then some p1 else if t == 202 then some p2 else none
    symbol_info := fun _ => some ()
    symbol_info_tick := fun sym => if sym == "EURUSD" then some tick1 else none
    order_send := fun _ => { retcode := 10009, order := 777, comment := "done" } }

/-- A connected bridge state with empty caches. -/
def sConn : BridgeState := { initState with connected := true }

/-- A connected bridge state whose caches hold an earlier snapshot. -/
def sStale : BridgeState :=
  { sConn with positions := [p1], orders := [ord1], account_info := some acct1 }

/-- A venue whose re-queries come back empty/None: `positions_get` and
`orders_get` return empty tuples and `account_info` returns `None`. -/
def dEmptyVenue : MT5Driver :=
  { okDriver with positions_get := [], orders_get := [], account_info := none }

/-- A venue where `mt5.symbols_get()` returns `None` (symbol-list fetch
failure) while everything else succeeds. -/
def dNoSymbols : MT5Driver := { okDriver with symbols_get := none }

/-! Theorems. -/

/-- C1: when the connection status is not Connected, every bridge
operation (placeOrder, closePosition, accountInfo, positions, orders,
marketData) fails with the `Not connected to MT5` error, leaves the state
untouched, and makes no call into the MetaTrader5 driver — in particular,
`place_order` returns the error with an empty trace, so no deal is ever
submitted. -/
theorem C1_not_connected_rejects (d : MT5Driver) (s : BridgeState)
    (sym : String) (ticket : Nat) (ot : String) (otn : Nat) (vol : Int)
    (price sl tp : Option Int) (c : String) (h : s.connected = false) :
    account_route d s = (Resp.errResp "Not connected to MT5" 400, s, []) ∧
    positions_route d s = (Resp.errResp "Not connected to MT5" 400, s, []) ∧
    orders_route d s = (Resp.errResp "Not connected to MT5" 400, s, []) ∧
    market_route d s sym = (Resp.errResp "Not connected to MT5" 400, s, []) ∧
    place_order_route d s sym ot vol price sl tp c =
      (Resp.errResp "Not connected to MT5" 400, s, []) ∧
    close_position_route d s ticket = (Resp.errResp "Not connected to MT5" 400, s, []) ∧
    place_order d s sym otn vol price sl tp c =
      ([("error", PyVal.pyStr "Not connected to MT5")], []) ∧
    close_position d s ticket = ([("error", PyVal.pyStr "Not connected to MT5")], []) := by
  simp [account_route, positions_route, orders_route, market_route, place_order_route,
    close_position_route, place_order, close_position, h]

/-- Witness for C1 at a concrete disconnected state and driver. -/
theorem C1_not_connected_rejects_witness :
    account_route okDriver initState = (Resp.errResp "Not connected to MT5" 400, initState, []) ∧
    positions_route okDriver initState = (Resp.errResp "Not connected to MT5" 400, initState, []) ∧
    orders_route okDriver initState = (Resp.errResp "Not connected to MT5" 400, initState, []) ∧
    market_route okDriver initState "EURUSD" =
      (Resp.errResp "Not connected to MT5" 400, initState, []) ∧
    place_order_route okDriver initState "EURUSD" "buy" 1 none none none "WingZero" =
      (Resp.errResp "Not connected to MT5" 400, initState, []) ∧
    close_position_route okDriver initState 101 =
      (Resp.errResp "Not connected to MT5" 400, initState, []) ∧
    place_order okDriver initState "EURUSD" 0 1 none none none "WingZero" =
      ([("error", PyVal.pyStr "Not connected to MT5")], []) ∧
    close_position okDriver initState 101 =
      ([("error", PyVal.pyStr "Not connected to MT5")], []) :=
  C1_not_connected_rejects okDriver initState "EURUSD" 101 "buy" 0 1 none none none "WingZero" rfl

/-- C2: a Connected `place_order` with no explicit price submits exactly
one deal, priced at the freshly fetched tick's ask for a buy and its bid
for a sell. -/
theorem C2_price_selection (d : MT5Driver) (s : BridgeState) (sym : String) (t : Tick)
    (vol : Int) (sl tp : Option Int) (c : String)
    (hc : s.connected = true) (hsi : d.symbol_info sym = some ())
    (ht : d.symbol_info_tick sym = some t) :
    submittedDeals (place_order d s sym ORDER_TYPE_BUY vol none sl tp c).2 =
      [placeDealReq sym ORDER_TYPE_BUY vol t.ask sl tp c] ∧
    submittedDeals (place_order d s sym ORDER_TYPE_SELL vol none sl tp c).2 =
      [placeDealReq sym ORDER_TYPE_SELL vol t.bid sl tp c] ∧
    (placeDealReq sym ORDER_TYPE_BUY vol t.ask sl tp c).price = t.ask ∧
    (placeDealReq sym ORDER_TYPE_SELL vol t.bid sl tp c).price = t.bid := by
  refine ⟨?_, ?_, rfl, rfl⟩ <;>
    simp [place_order, resolvedPrice, hc, hsi, ht, submittedDeals,
      ORDER_TYPE_BUY, ORDER_TYPE_SELL, placeDealReq]

/-- Witness for C2: tick {bid 1.1000, ask 1.1002} (scaled), buy submits at
the ask, sell at the bid. -/
theorem C2_price_selection_witness :
    submittedDeals (place_order okDriver sConn "EURUSD" ORDER_TYPE_BUY 1 none none none "WingZero").2 =
      [placeDealReq "EURUSD" ORDER_TYPE_BUY 1 tick1.ask none none "WingZero"] ∧
    submittedDeals (place_order okDriver sConn "EURUSD" ORDER_TYPE_SELL 1 none none none "WingZero").2 =
      [placeDealReq "EURUSD" ORDER_TYPE_SELL 1 tick1.bid none none "WingZero"] ∧
    (placeDealReq "EURUSD" ORDER_TYPE_BUY 1 tick1.ask none none "WingZero").price = tick1.ask ∧
    (placeDealReq "EURUSD" ORDER_TYPE_SELL 1 tick1.bid none none "WingZero").price = tick1.bid :=
  C2_price_selection okDriver sConn "EURUSD" tick1 1 none none "WingZero" rfl rfl (by decide)

/-- C3: a Connected `close_position` on ticket `T` submits exactly one
deal referencing `T`: a sell at the current bid when the recorded side is
buy, and a buy at the current ask when the recorded side is sell; the
closing request carries `position = T`. -/
theorem C3_close_opposite_side (d : MT5Driver) (s : BridgeState) (T : Nat)
    (pos : Position) (t : Tick)
    (hc : s.connected = true) (hp : d.positions_get_ticket T = some pos)
    (ht : d.symbol_info_tick pos.symbol = some t) :
    (pos.typ = POSITION_TYPE_BUY →
      submittedDeals (close_position d s T).2 = [closeDealReq pos T ORDER_TYPE_SELL t.bid]) ∧
    (pos.typ = POSITION_TYPE_SELL →
      submittedDeals (close_position d s T).2 = [closeDealReq pos T ORDER_TYPE_BUY t.ask]) ∧
    (closeDealReq pos T ORDER_TYPE_SELL t.bid).position = some T ∧
    (closeDealReq pos T ORDER_TYPE_BUY t.ask).position = some T := by
  refine ⟨?_, ?_, rfl, rfl⟩ <;> intro hty <;>
    simp [close_position, hc, hp, ht, hty, submittedDeals, closeDealReq,
      POSITION_TYPE_BUY, POSITION_TYPE_SELL, ORDER_TYPE_BUY, ORDER_TYPE_SELL]

/-- Witness for C3: closing long ticket 101 submits a sell at the bid and
closing short ticket 202 submits a buy at the ask, each referencing its
ticket. -/
theorem C3_close_opposite_side_witness :
    submittedDeals (close_position okDriver sConn 101).2 =
      [closeDealReq p1 101 ORDER_TYPE_SELL tick1.bid] ∧
    submittedDeals (close_position okDriver sConn 202).2 =
      [closeDealReq p2 202 ORDER_TYPE_BUY tick1.ask] ∧
    (closeDealReq p1 101 ORDER_TYPE_SELL tick1.bid).position = some 101 ∧
    (closeDealReq p2 202 ORDER_TYPE_BUY tick1.ask).position = some 202 :=
  ⟨(C3_close_opposite_side okDriver sConn 101 p1 tick1 rfl (by decide) (by decide)).1 rfl,
   (C3_close_opposite_side okDriver sConn 202 p2 tick1 rfl (by decide) (by decide)).2.1 rfl,
   rfl, rfl⟩

/-- C7: `disconnect` is total and idempotent: it always leaves the status
Disconnected and the stream stopped, running it again from the resulting
state changes nothing, and calling it when already fully disconnected is a
state-level no-op. -/
theorem C7_disconnect_idempotent (s : BridgeState) :
    (disconnect s).1.connected = false ∧ (disconnect s).1.running = false ∧
    (disconnect (disconnect s).1).1 = (disconnect s).1 ∧
    (s.connected = false → s.running = false → (disconnect s).1 = s) := by
  refine ⟨rfl, rfl, rfl, ?_⟩
  intro hc hr
  cases s
  simp_all [disconnect]

/-- Witness for C7: disconnecting the freshly initialized (already
disconnected) state is a no-op. -/
theorem C7_disconnect_idempotent_witness : (disconnect initState).1 = initState :=
  (C7_disconnect_idempotent initState).2.2.2 rfl rfl

theorem sessionConnects_append (a b : List DriverCall) :
    sessionConnects (a ++ b) = sessionConnects a + sessionConnects b := by
  induction a with
  | nil => simp [sessionConnects]
  | cons hd rest ih =>
    cases hd <;> simp [sessionConnects, ih]
    omega

theorem connectAfterLogin_ok (d : MT5Driver) (s : BridgeState) (tr : List DriverCall)
    (a : AccountInfo) (hacct : d.account_info = some a) :
    (connectAfterLogin d s tr).1 = true ∧
    (connectAfterLogin d s tr).2.1.connected = true ∧
    (connectAfterLogin d s tr).2.1.running = s.running ∧
    (connectAfterLogin d s tr).2.2 = tr ++ [DriverCall.accountInfo, DriverCall.symbolsGet] := by
  cases hsy : d.symbols_get with
  | none => simp [connectAfterLogin, hacct, hsy]
  | some syms =>
    by_cases he : syms.isEmpty <;> simp [connectAfterLogin, hacct, hsy, he]

theorem connect_ok (d : MT5Driver) (s : BridgeState) (creds : Option (Nat × String × String))
    (a : AccountInfo) (hinit : d.mt5_init_ok = true)
    (hlogin : ∀ l p sv, d.login_ok l p sv = true) (hacct : d.account_info = some a) :
    (connect d s creds).1 = true ∧
    (connect d s creds).2.1.connected = true ∧
    (connect d s creds).2.1.running = s.running ∧
    sessionConnects (connect d s creds).2.2 = 1 := by
  cases creds with
  | none =>
    have h := connectAfterLogin_ok d s [DriverCall.mt5Init] a hacct
    simp only [connect, hinit, Bool.not_true, Bool.false_eq_true, if_false]
    exact ⟨h.1, h.2.1, h.2.2.1, by rw [h.2.2.2]; rfl⟩
  | some lps =>
    obtain ⟨l, p, sv⟩ := lps
    have h := connectAfterLogin_ok d s [DriverCall.mt5Init, DriverCall.login l p sv] a hacct
    simp only [connect, hinit, hlogin, Bool.not_true, Bool.false_eq_true, if_false]
    exact ⟨h.1, h.2.1, h.2.2.1, by rw [h.2.2.2]; rfl⟩

theorem start_data_stream_running (s : BridgeState) :
    (start_data_stream s).1.running = true ∧
    (start_data_stream s).1.connected = s.connected ∧
    (start_data_stream s).2 = !s.running := by
  by_cases hr : s.running <;> simp [start_data_stream, hr]

/-- The two successive `POST /api/v1/connect` requests of the idempotence
claim, from an arbitrary starting state. -/
def connectTwice (d : MT5Driver) (s : BridgeState) (creds : Option (Nat × String × String)) :
    (Resp × BridgeState × List DriverCall × Nat) × (Resp × BridgeState × List DriverCall × Nat) :=
  let r1 := connect_route d s creds
  (r1, connect_route d r1.2.1 creds)

/-- C4 counterexample: with the healthy driver, the first connect request
leaves the bridge Connected, yet a repeated connect is not a no-op — the
pair of calls performs two session-level connects (`mt5.initialize` runs
again), violating the claimed bound of at most one. -/
theorem C4_connect_counterexample :
    (connectTwice okDriver initState none).1.2.1.connected = true ∧
    ¬ (sessionConnects ((connectTwice okDriver initState none).1.2.2.1 ++
        (connectTwice okDriver initState none).2.2.2.1) ≤ 1) := by
  constructor
  · rfl
  · decide

theorem connect_route_trace (d : MT5Driver) (x : BridgeState)
    (creds : Option (Nat × String × String)) :
    (connect_route d x creds).2.2.1 = (connect d x creds).2.2 := by
  simp only [connect_route]
  split <;> rfl

theorem connect_route_starts_le (d : MT5Driver) (x : BridgeState)
    (creds : Option (Nat × String × String)) :
    (connect_route d x creds).2.2.2 ≤ 1 := by
  simp only [connect_route]
  split
  · split <;> simp
  · simp

theorem connect_route_state_ok (d : MT5Driver) (x : BridgeState)
    (creds : Option (Nat × String × String)) (h : (connect d x creds).1 = true) :
    (connect_route d x creds).2.1 = (start_data_stream (connect d x creds).2.1).1 := by
  simp [connect_route, h]

theorem connect_route_resp_ok (d : MT5Driver) (x : BridgeState)
    (creds : Option (Nat × String × String)) (h : (connect d x creds).1 = true) :
    (connect_route d x creds).1 =
      Resp.okDict [("success", PyVal.pyBool true), ("message", PyVal.pyStr "Connected to MT5")]
        200 := by
  simp [connect_route, h]

theorem connect_route_starts_of_running (d : MT5Driver) (x : BridgeState)
    (creds : Option (Nat × String × String))
    (h : (connect d x creds).2.1.running = true) :
    (connect_route d x creds).2.2.2 = 0 := by
  simp only [connect_route]
  split
  · simp [start_data_stream, h]
  · rfl

/-- C4 amended: repeating `connect` while already Connected is not a no-op
— it re-runs the whole connect sequence, so two connect requests perform
exactly two session-level connects — but both calls return success and the
StreamScheduler start is idempotent: at most one stream start happens
across the two calls. -/
theorem C4_connect_reconnects_amended (d : MT5Driver) (s : BridgeState)
    (creds : Option (Nat × String × String)) (a : AccountInfo)
    (hinit : d.mt5_init_ok = true) (hlogin : ∀ l p sv, d.login_ok l p sv = true)
    (hacct : d.account_info = some a) :
    (connectTwice d s creds).1.2.1.connected = true ∧
    (connectTwice d s creds).2.1 =
      Resp.okDict [("success", PyVal.pyBool true), ("message", PyVal.pyStr "Connected to MT5")] 200 ∧
    sessionConnects ((connectTwice d s creds).1.2.2.1 ++ (connectTwice d s creds).2.2.2.1) = 2 ∧
    (connectTwice d s creds).1.2.2.2 + (connectTwice d s creds).2.2.2.2 ≤ 1 := by
  have h1 := connect_ok d s creds a hinit hlogin hacct
  have hst1 := start_data_stream_running (connect d s creds).2.1
  have h2 := connect_ok d (connect_route d s creds).2.1 creds a hinit hlogin hacct
  have hrun1 : (connect_route d s creds).2.1.running = true := by
    rw [connect_route_state_ok d s creds h1.1, hst1.1]
  refine ⟨?_, ?_, ?_, ?_⟩
  · simp only [connectTwice]
    rw [connect_route_state_ok d s creds h1.1, hst1.2.1]
    exact h1.2.1
  · simp only [connectTwice]
    exact connect_route_resp_ok d (connect_route d s creds).2.1 creds h2.1
  · simp only [connectTwice, sessionConnects_append, connect_route_trace]
    rw [h1.2.2.2, h2.2.2.2]
  · have c1 := connect_route_starts_le d s creds
    have c2 : (connect_route d (connect_route d s creds).2.1 creds).2.2.2 = 0 := by
      apply connect_route_starts_of_running
      rw [h2.2.2.1, hrun1]
    simp only [connectTwice]
    omega

/-- Witness for C4's amended theorem at the concrete healthy driver. -/
theorem C4_connect_reconnects_amended_witness :
    (connectTwice okDriver initState none).1.2.1.connected = true ∧
    (connectTwice okDriver initState none).2.1 =
      Resp.okDict [("success", PyVal.pyBool true), ("message", PyVal.pyStr "Connected to MT5")] 200 ∧
    sessionConnects ((connectTwice okDriver initState none).1.2.2.1 ++
      (connectTwice okDriver initState none).2.2.2.1) = 2 ∧
    (connectTwice okDriver initState none).1.2.2.2 +
      (connectTwice okDriver initState none).2.2.2.2 ≤ 1 :=
  C4_connect_reconnects_amended okDriver initState none acct1 rfl (fun _ _ _ => rfl) rfl

/-- C5 counterexample: with a stale cache (`positions = [p1]`,
`account_info = some acct1`) and a venue whose re-queries come back empty
(`positions_get = []`) or null (`account_info = None`), the accessors do
NOT replace the stored fields with the freshly re-queried values: the old
snapshot survives, differing from the fresh result, and `get_positions`
returns `[]` while the stored field still holds the stale positions. -/
theorem C5_stale_cache_counterexample :
    (get_positions dEmptyVenue sStale).1 = [] ∧
    (get_positions dEmptyVenue sStale).2.1.positions = [p1] ∧
    dEmptyVenue.positions_get = [] ∧
    (get_positions dEmptyVenue sStale).2.1.positions ≠ dEmptyVenue.positions_get ∧
    (get_account_info dEmptyVenue sStale).2.1.account_info = some acct1 ∧
    dEmptyVenue.account_info = none ∧
    (get_account_info dEmptyVenue sStale).2.1.account_info ≠ dEmptyVenue.account_info := by
  refine ⟨rfl, rfl, rfl, ?_, rfl, rfl, ?_⟩ <;> decide

/-- C5 amended: each Connected read accessor re-queries the venue
synchronously; when the venue returns a non-empty (non-null) result the
corresponding `BridgeState` field is replaced with it before returning,
but when the venue returns an empty or null result the stored field is
left unchanged (possibly stale) and the accessor returns `[]`/`None`. -/
theorem C5_refresh_amended (d : MT5Driver) (s : BridgeState) (hc : s.connected = true) :
    (d.positions_get = [] → get_positions d s = ([], s, [DriverCall.positionsGet])) ∧
    (d.positions_get ≠ [] → get_positions d s =
      (d.positions_get, { s with positions := d.positions_get }, [DriverCall.positionsGet])) ∧
    (d.orders_get = [] → get_orders d s = ([], s, [DriverCall.ordersGet])) ∧
    (d.orders_get ≠ [] → get_orders d s =
      (d.orders_get, { s with orders := d.orders_get }, [DriverCall.ordersGet])) ∧
    (d.account_info = none → get_account_info d s = (none, s, [DriverCall.accountInfo])) ∧
    (∀ a, d.account_info = some a → get_account_info d s =
      (some a, { s with account_info := some a }, [DriverCall.accountInfo])) := by
  refine ⟨fun h => ?_, fun h => ?_, fun h => ?_, fun h => ?_, fun h => ?_, fun a h => ?_⟩ <;>
    simp [get_positions, get_orders, get_account_info, hc, h, List.isEmpty_iff]

/-- Witness for C5's amended theorem: the healthy driver has a non-empty
position set, so the cache is refreshed and returned. -/
theorem C5_refresh_amended_witness :
    get_positions okDriver sConn =
      ([p1], { sConn with positions := [p1] }, [DriverCall.positionsGet]) :=
  (C5_refresh_amended okDriver sConn rfl).2.1 (by decide)

/-- C6 counterexample: with a venue whose `symbols_get` returns `None`
(symbol-list fetch failure) but whose account query succeeds, `connect`
still returns success, the status still becomes Connected, and the symbol
list was never fetched (it stays empty) — contradicting the claim that a
symbol-fetch failure is surfaced as a connect failure. -/
theorem C6_symbol_fetch_counterexample :
    (connect dNoSymbols initState none).1 = true ∧
    (connect dNoSymbols initState none).2.1.connected = true ∧
    dNoSymbols.symbols_get = none ∧
    (connect dNoSymbols initState none).2.1.symbols = [] := by
  refine ⟨rfl, rfl, rfl, rfl⟩

/-- C6 amended: a failed symbol-list fetch does not make `connect` fail:
after a successful initialization, `connect` (without credentials) returns
success exactly when the account snapshot is fetched, at which point the
status is already Connected; when `symbols_get` returns null the stored
symbol list is simply left unchanged. -/
theorem C6_connect_amended (d : MT5Driver) (s : BridgeState)
    (hinit : d.mt5_init_ok = true) :
    ((connect d s none).1 = d.account_info.isSome) ∧
    (d.account_info.isSome = true → (connect d s none).2.1.connected = true) ∧
    (d.symbols_get = none → (connect d s none).2.1.symbols = s.symbols) := by
  cases hacct : d.account_info with
  | none =>
    refine ⟨?_, ?_, ?_⟩ <;> simp [connect, connectAfterLogin, hinit, hacct]
  | some a =>
    have h := connectAfterLogin_ok d s [DriverCall.mt5Init] a hacct
    have hco : connect d s none = connectAfterLogin d s [DriverCall.mt5Init] := by
      simp [connect, hinit]
    refine ⟨?_, fun _ => ?_, fun hsy => ?_⟩
    · simp [hco, h.1, hacct]
    · rw [hco]; exact h.2.1
    · rw [hco]
      simp [connectAfterLogin, hacct, hsy]

/-- Witness for C6's amended theorem at the symbol-fetch-failure driver:
connect succeeds, is Connected, and keeps the empty symbol list. -/
theorem C6_connect_amended_witness :
    ((connect dNoSymbols initState none).1 = dNoSymbols.account_info.isSome) ∧
    (connect dNoSymbols initState none).2.1.connected = true ∧
    (connect dNoSymbols initState none).2.1.symbols = initState.symbols :=
  ⟨(C6_connect_amended dNoSymbols initState rfl).1,
   (C6_connect_amended dNoSymbols initState rfl).2.1 rfl,
   (C6_connect_amended dNoSymbols initState rfl).2.2 rfl⟩

theorem mdLookup_mdInsert_self (m : List (String × MarketData)) (k : String) (v : MarketData) :
    mdLookup (mdInsert m k v) k = some v := by
  induction m with
  | nil => simp [mdInsert, mdLookup]
  | cons hd rest ih =>
    obtain ⟨k', v'⟩ := hd
    by_cases hk : (k' == k) = true
    · simp [mdInsert, mdLookup, hk]
    · simp only [mdInsert, hk]
      simp only [Bool.not_eq_true] at hk
      simp [mdLookup, hk, ih]

theorem mdLookup_mdInsert_ne (m : List (String × MarketData)) (k k' : String) (v : MarketData)
    (h : (k' == k) = false) :
    mdLookup (mdInsert m k' v) k = mdLookup m k := by
  induction m with
  | nil => simp [mdInsert, mdLookup, h]
  | cons hd rest ih =>
    obtain ⟨k0, v0⟩ := hd
    by_cases hk : (k0 == k') = true
    · have hk0 : (k0 == k) = false := by
        have e1 : k0 = k' := by simpa using hk
        subst e1; exact h
      simp [mdInsert, mdLookup, hk, hk0, h]
    · simp only [mdInsert, hk]
      simp only [Bool.not_eq_true] at hk
      by_cases hk2 : (k0 == k) = true
      · simp [mdLookup, hk, hk2]
      · simp only [Bool.not_eq_true] at hk2
        simp [mdLookup, hk, hk2, ih]

theorem get_market_data_eq (d : MT5Driver) (s : BridgeState) (sym : String) (t : Tick)
    (hc : s.connected = true) (ht : d.symbol_info_tick sym = some t) :
    get_market_data d s sym = (some (mkMarketData sym t), [DriverCall.symbolInfoTick sym]) := by
  simp [get_market_data, hc, ht]

theorem stream_tick_pass_connected (d : MT5Driver) (l : List String) :
    ∀ s : BridgeState, (stream_tick_pass d s l).1.connected = s.connected := by
  induction l with
  | nil => intro s; rfl
  | cons sym rest ih =>
    intro s
    simp only [stream_tick_pass]
    cases hm : (get_market_data d s sym).1 with
    | none => simp [hm, ih]
    | some data => simp [hm, ih]

theorem stream_tick_pass_market_stable (d : MT5Driver) (sym : String) (t : Tick)
    (ht : d.symbol_info_tick sym = some t) (l : List String) :
    ∀ s : BridgeState, s.connected = true →
      mdLookup s.market_data sym = some (mkMarketData sym t) →
      mdLookup (stream_tick_pass d s l).1.market_data sym = some (mkMarketData sym t) := by
  induction l with
  | nil => intro s _ hl; exact hl
  | cons sym' rest ih =>
    intro s hc hl
    simp only [stream_tick_pass]
    cases hm : (get_market_data d s sym').1 with
    | none => exact ih s hc hl
    | some data =>
      simp only
      apply ih { s with market_data := mdInsert s.market_data sym' data } hc
      by_cases hk : (sym' == sym) = true
      · have hsym : sym' = sym := by simpa using hk
        subst hsym
        have hdata : data = mkMarketData sym' t := by
          rw [get_market_data_eq d s sym' t hc ht] at hm
          exact (Option.some_inj.mp hm).symm
        subst hdata
        exact mdLookup_mdInsert_self s.market_data sym' (mkMarketData sym' t)
      · have hk' : (sym' == sym) = false := by
          simpa using hk
        rw [mdLookup_mdInsert_ne s.market_data sym sym' data hk']
        exact hl

theorem stream_tick_pass_hits (d : MT5Driver) (sym : String) (t : Tick)
    (ht : d.symbol_info_tick sym = some t) (l : List String) :
    ∀ s : BridgeState, s.connected = true → sym ∈ l →
      StreamEvent.marketData (mkMarketData sym t) ∈ (stream_tick_pass d s l).2 ∧
      mdLookup (stream_tick_pass d s l).1.market_data sym = some (mkMarketData sym t) := by
  induction l with
  | nil => intro s _ hmem; cases hmem
  | cons sym' rest ih =>
    intro s hc hmem
    by_cases hs : sym' = sym
    · subst hs
      have hgm := get_market_data_eq d s sym' t hc ht
      have hm1 : (get_market_data d s sym').1 = some (mkMarketData sym' t) := by rw [hgm]
      simp only [stream_tick_pass, hm1]
      constructor
      · exact List.mem_cons_self _ _
      · exact stream_tick_pass_market_stable d sym' t ht rest
          { s with market_data := mdInsert s.market_data sym' (mkMarketData sym' t) } hc
          (mdLookup_mdInsert_self s.market_data sym' (mkMarketData sym' t))
    · have hmem' : sym ∈ rest := by
        rcases List.mem_cons.mp hmem with h | h
        · exact absurd h.symm hs
        · exact h
      simp only [stream_tick_pass]
      cases hm : (get_market_data d s sym').1 with
      | none => exact ih s hc hmem'
      | some data =>
        have h := ih { s with market_data := mdInsert s.market_data sym' data } hc hmem'
        exact ⟨List.mem_cons_of_mem _ h.1, h.2⟩

theorem get_positions_preserves_market (d : MT5Driver) (s : BridgeState) :
    (get_positions d s).2.1.market_data = s.market_data ∧
    (get_positions d s).2.1.connected = s.connected := by
  simp only [get_positions]
  split
  · exact ⟨rfl, rfl⟩
  · split <;> exact ⟨rfl, rfl⟩

theorem get_account_info_preserves_market (d : MT5Driver) (s : BridgeState) :
    (get_account_info d s).2.1.market_data = s.market_data := by
  simp only [get_account_info]
  split
  · rfl
  · split <;> rfl

/-- C8: in a streaming-loop iteration, any watched symbol whose tick fetch
succeeds is sampled, stored in `market_data`, and published as a
`market_data` event — regardless of which other symbols' fetches fail:
failed symbols are merely skipped. -/
theorem C8_stream_skips_failed (d : MT5Driver) (s : BridgeState) (fifth : Bool)
    (sym : String) (t : Tick) (hc : s.connected = true) (hmem : sym ∈ major_pairs)
    (ht : d.symbol_info_tick sym = some t) :
    StreamEvent.marketData (mkMarketData sym t) ∈ (stream_iteration d s fifth).2 ∧
    mdLookup (stream_iteration d s fifth).1.market_data sym = some (mkMarketData sym t) := by
  have h := stream_tick_pass_hits d sym t ht major_pairs s hc hmem
  cases fifth with
  | false => exact h
  | true =>
    simp only [stream_iteration, if_true]
    constructor
    · exact List.mem_append_left _ h.1
    · rw [get_account_info_preserves_market,
        (get_positions_preserves_market d (stream_tick_pass d s major_pairs).1).1]
      exact h.2

/-- Witness for C8: with the healthy driver only EURUSD has a live tick
(the other six majors fail), yet EURUSD is stored and published. -/
theorem C8_stream_skips_failed_witness :
    StreamEvent.marketData (mkMarketData "EURUSD" tick1) ∈ (stream_iteration okDriver sConn true).2 ∧
    mdLookup (stream_iteration okDriver sConn true).1.market_data "EURUSD" =
      some (mkMarketData "EURUSD" tick1) :=
  C8_stream_skips_failed okDriver sConn true "EURUSD" tick1 rfl (by decide) (by decide)

theorem place_order_shape (d : MT5Driver) (s : BridgeState) (sym : String) (otn : Nat)
    (vol : Int) (price sl tp : Option Int) (c : String) :
    (hasKey (place_order d s sym otn vol price sl tp c).1 "error" =
      !placeOrderSucceeds d s sym otn vol price sl tp c) ∧
    (placeOrderSucceeds d s sym otn vol price sl tp c = true →
      dictKeys (place_order d s sym otn vol price sl tp c).1 =
        ["success", "order_id", "retcode", "comment"]) ∧
    (placeOrderSucceeds d s sym otn vol price sl tp c = false →
      ∃ m, (place_order d s sym otn vol price sl tp c).1 = [("error", PyVal.pyStr m)]) := by
  by_cases hc : s.connected = true
  · cases hsi : d.symbol_info sym with
    | none =>
      refine ⟨?_, ?_, fun _ => ⟨"Symbol " ++ sym ++ " not found", ?_⟩⟩ <;>
        simp [place_order, placeOrderSucceeds, hc, hsi, hasKey]
    | some u =>
      cases hrp : resolvedPrice d sym otn price with
      | none =>
        refine ⟨?_, ?_, fun _ => ⟨"Failed to get price for " ++ sym, ?_⟩⟩ <;>
          simp [place_order, placeOrderSucceeds, hc, hsi, hrp, hasKey]
      | some p =>
        by_cases hrc :
            (d.order_send (placeDealReq sym otn vol p sl tp c)).retcode = TRADE_RETCODE_DONE
        · refine ⟨?_, fun _ => ?_, fun hf => ?_⟩
          · simp [place_order, placeOrderSucceeds, hc, hsi, hrp, hrc, hasKey, bne]
          · simp [place_order, hc, hsi, hrp, hrc, dictKeys, bne]
          · exfalso
            simp [placeOrderSucceeds, hc, hsi, hrp, hrc] at hf
        · refine ⟨?_, fun ht => ?_,
            fun _ => ⟨"Order failed: " ++ (d.order_send (placeDealReq sym otn vol p sl tp c)).comment, ?_⟩⟩
          · simp [place_order, placeOrderSucceeds, hc, hsi, hrp, hrc, hasKey, bne]
          · exfalso
            simp [placeOrderSucceeds, hc, hsi, hrp, hrc] at ht
          · simp [place_order, hc, hsi, hrp, hrc, bne]
  · have hc' : s.connected = false := by simpa using hc
    refine ⟨?_, ?_, fun _ => ⟨"Not connected to MT5", ?_⟩⟩ <;>
      simp [place_order, placeOrderSucceeds, hc', hasKey]

theorem close_position_shape (d : MT5Driver) (s : BridgeState) (ticket : Nat) :
    (hasKey (close_position d s ticket).1 "error" = !closePositionSucceeds d s ticket) ∧
    (closePositionSucceeds d s ticket = true →
      dictKeys (close_position d s ticket).1 = ["success", "order_id", "retcode"]) ∧
    (closePositionSucceeds d s ticket = false →
      ∃ m, (close_position d s ticket).1 = [("error", PyVal.pyStr m)]) := by
  have e1 : (ORDER_TYPE_SELL == ORDER_TYPE_SELL) = true := rfl
  have e2 : (ORDER_TYPE_BUY == ORDER_TYPE_SELL) = false := rfl
  by_cases hc : s.connected = true
  · cases hp : d.positions_get_ticket ticket with
    | none =>
      refine ⟨?_, ?_, fun _ => ⟨"Position " ++ toString ticket ++ " not found", ?_⟩⟩ <;>
        simp [close_position, closePositionSucceeds, hc, hp, hasKey]
    | some pos =>
      cases htk : d.symbol_info_tick pos.symbol with
      | none =>
        refine ⟨?_, ?_, fun _ => ⟨"Failed to get price for " ++ pos.symbol, ?_⟩⟩ <;>
          simp [close_position, closePositionSucceeds, hc, hp, htk, hasKey]
      | some t =>
        by_cases hty : (pos.typ == POSITION_TYPE_BUY) = true
        · by_cases hrc :
              (d.order_send (closeDealReq pos ticket ORDER_TYPE_SELL t.bid)).retcode =
                TRADE_RETCODE_DONE
          · refine ⟨?_, fun _ => ?_, fun hf => ?_⟩
            · simp [close_position, closePositionSucceeds, hc, hp, htk, hty, e1, hrc, hasKey, bne]
            · simp [close_position, hc, hp, htk, hty, e1, hrc, dictKeys, bne]
            · exfalso
              simp [closePositionSucceeds, hc, hp, htk, hty, e1, hrc] at hf
          · refine ⟨?_, fun ht => ?_,
              fun _ => ⟨"Close failed: " ++
                (d.order_send (closeDealReq pos ticket ORDER_TYPE_SELL t.bid)).comment, ?_⟩⟩
            · simp [close_position, closePositionSucceeds, hc, hp, htk, hty, e1, hrc, hasKey, bne]
            · exfalso
              simp [closePositionSucceeds, hc, hp, htk, hty, e1, hrc] at ht
            · simp [close_position, hc, hp, htk, hty, e1, hrc, bne]
        · have hty' : (pos.typ == POSITION_TYPE_BUY) = false := by simpa using hty
          by_cases hrc :
              (d.order_send (closeDealReq pos ticket ORDER_TYPE_BUY t.ask)).retcode =
                TRADE_RETCODE_DONE
          · refine ⟨?_, fun _ => ?_, fun hf => ?_⟩
            · simp [close_position, closePositionSucceeds, hc, hp, htk, hty', e2, hrc, hasKey, bne]
            · simp [close_position, hc, hp, htk, hty', e2, hrc, dictKeys, bne]
            · exfalso
              simp [closePositionSucceeds, hc, hp, htk, hty', e2, hrc] at hf
          · refine ⟨?_, fun ht => ?_,
              fun _ => ⟨"Close failed: " ++
                (d.order_send (closeDealReq pos ticket ORDER_TYPE_BUY t.ask)).comment, ?_⟩⟩
            · simp [close_position, closePositionSucceeds, hc, hp, htk, hty', e2, hrc, hasKey, bne]
            · exfalso
              simp [closePositionSucceeds, hc, hp, htk, hty', e2, hrc] at ht
            · simp [close_position, hc, hp, htk, hty', e2, hrc, bne]
  · have hc' : s.connected = false := by simpa using hc
    refine ⟨?_, ?_, fun _ => ⟨"Not connected to MT5", ?_⟩⟩ <;>
      simp [close_position, closePositionSucceeds, hc', hasKey]

/-- C10: every `place_order`/`close_position` result dict contains the
`"error"` key exactly when the operation's success path was not taken;
a successful `place_order` result has exactly the keys success, order_id,
retcode, comment (in that order), a successful `close_position` result has
exactly success, order_id, retcode (no comment), and every failure result
is exactly the singleton `error` dict. -/
theorem C10_result_dict_shape (d : MT5Driver) (s : BridgeState) (sym : String) (otn : Nat)
    (vol : Int) (price sl tp : Option Int) (c : String) (ticket : Nat) :
    (hasKey (place_order d s sym otn vol price sl tp c).1 "error" =
      !placeOrderSucceeds d s sym otn vol price sl tp c) ∧
    (placeOrderSucceeds d s sym otn vol price sl tp c = true →
      dictKeys (place_order d s sym otn vol price sl tp c).1 =
        ["success", "order_id", "retcode", "comment"]) ∧
    (placeOrderSucceeds d s sym otn vol price sl tp c = false →
      ∃ m, (place_order d s sym otn vol price sl tp c).1 = [("error", PyVal.pyStr m)]) ∧
    (hasKey (close_position d s ticket).1 "error" = !closePositionSucceeds d s ticket) ∧
    (closePositionSucceeds d s ticket = true →
      dictKeys (close_position d s ticket).1 = ["success", "order_id", "retcode"]) ∧
    (closePositionSucceeds d s ticket = false →
      ∃ m, (close_position d s ticket).1 = [("error", PyVal.pyStr m)]) :=
  ⟨(place_order_shape d s sym otn vol price sl tp c).1,
   (place_order_shape d s sym otn vol price sl tp c).2.1,
   (place_order_shape d s sym otn vol price sl tp c).2.2,
   (close_position_shape d s ticket).1,
   (close_position_shape d s ticket).2.1,
   (close_position_shape d s ticket).2.2⟩

/-- Witness for C10: with the healthy driver both trade calls succeed and
return exactly the claimed key sets. -/
theorem C10_result_dict_shape_witness :
    dictKeys (place_order okDriver sConn "EURUSD" 0 1 none none none "WingZero").1 =
      ["success", "order_id", "retcode", "comment"] ∧
    dictKeys (close_position okDriver sConn 101).1 = ["success", "order_id", "retcode"] :=
  ⟨(C10_result_dict_shape okDriver sConn "EURUSD" 0 1 none none none "WingZero" 101).2.1
      (by decide),
   (C10_result_dict_shape okDriver sConn "EURUSD" 0 1 none none none "WingZero" 101).2.2.2.2.1
      (by decide)⟩

end MT5Bridge
